import Mathlib

/-!
Verification of the `getattrlistbulk` directory-enumeration crate.

This file is a shallow embedding of the crate's core (the buffer decoder in
`src/parser.rs`, the fetch/refill state machine in `src/iter.rs`, the data
model in `src/types.rs` and the construction entry points in `src/lib.rs` and
`src/builder.rs`), followed by theorems settling the specification claims.

Modelling conventions:
- Byte buffers are `List Nat`; multi-byte fields are little endian (the crate
  uses native endianness and targets macOS, which is little endian on all
  supported architectures).
- Rust machine integers are `Nat`/`Int` with explicit two's-complement
  conversions (`signed32`, `signed64`, `i32AsUsize`) and explicit wrapping
  (`% 2 ^ 64`) where release-mode Rust wraps.
- Fallible Rust code returns a `PRes` value; `PRes.panicked` marks executions
  in which Rust would panic (an out-of-range slice index, for instance).
- `String::from_utf8_lossy` is presentation: decoded names are modelled as the
  byte strings handed to it (so a name equality below is an equality of the
  bytes that get decoded).  `SystemTime` is likewise modelled as the raw
  `(tv_sec, tv_nsec)` pair read from the wire.
- The operating system is an oracle: a list of `FetchOutcome` values consumed
  by each `getattrlistbulk` invocation, so "the stream issues a bulk call"
  is observable as consumption of the oracle list.
-/

/-- Result of running a fallible piece of Rust code: a value, an error, or a
panic of the Rust runtime. -/
inductive PRes (ε : Type) (α : Type) where
  | ok (a : α)
  | err (e : ε)
  | panicked
deriving DecidableEq, Repr

/-- Sequencing of fallible steps: the model of Rust's `?` operator.  An `ok`
value flows into the continuation; an error or panic short-circuits. -/
def PRes.bind {ε α β : Type} : PRes ε α → (α → PRes ε β) → PRes ε β
  | PRes.ok a, f => f a
  | PRes.err e, _ => PRes.err e
  | PRes.panicked, _ => PRes.panicked

/-- Parse errors, from `src/error.rs` (`enum ParseError`). -/
inductive ParseError where
  | bufferTooSmall
  | invalidOffset
  | unexpectedEnd
  | invalidEntryLength
deriving DecidableEq, Repr

/-- Stream-level errors, from `src/error.rs` (`enum Error`).  The `io::Error`
payloads of `Open` and `Syscall` carry no information used by the crate's
control flow, so they are dropped; `Parse` carries the structured parse error
(the `String` in the source is produced from it by `Display`). -/
inductive StreamError where
  | openErr
  | syscall
  | parse (e : ParseError)
  | notSupported
deriving DecidableEq, Repr

/-- Filesystem object kinds, from `src/types.rs` (`enum ObjectType`). -/
inductive ObjectType where
  | regular
  | directory
  | symlink
  | blockDevice
  | charDevice
  | socket
  | fifo
  | unknown (v : Nat)
deriving DecidableEq, Repr

/-- `impl From<u32> for ObjectType` in `src/types.rs`: vnode type codes. -/
def ObjectType.fromCode (vtype : Nat) : ObjectType :=
  match vtype with
  | 1 => ObjectType.regular
  | 2 => ObjectType.directory
  | 5 => ObjectType.symlink
  | 3 => ObjectType.blockDevice
  | 4 => ObjectType.charDevice
  | 6 => ObjectType.socket
  | 7 => ObjectType.fifo
  | v => ObjectType.unknown v

/-- Attribute request flags, from `src/types.rs` (`struct RequestedAttributes`). -/
structure RequestedAttributes where
  name : Bool
  object_type : Bool
  size : Bool
  alloc_size : Bool
  modified_time : Bool
  permissions : Bool
  inode : Bool
  entry_count : Bool
deriving DecidableEq, Repr

/-- `Default::default()` for `RequestedAttributes`: every flag false. -/
def RequestedAttributes.default : RequestedAttributes :=
  ⟨false, false, false, false, false, false, false, false⟩

/-- `RequestedAttributes::all()`: every flag true. -/
def RequestedAttributes.all : RequestedAttributes :=
  ⟨true, true, true, true, true, true, true, true⟩

/-- The `attrlist` request structure from `src/ffi.rs`. -/
structure Attrlist where
  bitmapcount : Nat
  reserved : Nat
  commonattr : Nat
  volattr : Nat
  dirattr : Nat
  fileattr : Nat
  forkattr : Nat
deriving DecidableEq, Repr

/-- `impl From<RequestedAttributes> for ffi::attrlist` in `src/types.rs`:
encode the request flags into the syscall bitmask groups.  `RETURNED_ATTRS`
(0x80000000) is always set. -/
def RequestedAttributes.into_attrlist (req : RequestedAttributes) : Attrlist :=
  let common0 : Nat := 0x80000000
  let common1 := if req.name then common0 ||| 0x00000001 else common0
  let common2 := if req.object_type then common1 ||| 0x00000008 else common1
  let common3 := if req.modified_time then common2 ||| 0x00000400 else common2
  let common4 := if req.permissions then common3 ||| 0x00020000 else common3
  let common5 := if req.inode then common4 ||| 0x02000000 else common4
  let file1 := if req.size then (0 : Nat) ||| 0x00000002 else 0
  let file2 := if req.alloc_size then file1 ||| 0x00000004 else file1
  let dir1 := if req.entry_count then (0 : Nat) ||| 0x00000002 else 0
  ⟨5, 0, common5, 0, dir1, file2, 0⟩

/-- The per-record returned-attribute bitmap, from `src/ffi.rs`
(`struct attribute_set`): five 4-byte masks. -/
structure AttributeSet where
  commonattr : Nat
  volattr : Nat
  dirattr : Nat
  fileattr : Nat
  forkattr : Nat
deriving DecidableEq, Repr

/-- A decoded directory entry, from `src/types.rs` (`struct DirEntry`).
`name` holds the bytes handed to `String::from_utf8_lossy`; `modified_time`
holds the raw `(tv_sec, tv_nsec)` pair. -/
structure DirEntry where
  name : List Nat
  object_type : Option ObjectType
  size : Option Nat
  alloc_size : Option Nat
  modified_time : Option (Int × Int)
  permissions : Option Nat
  inode : Option Nat
  entry_count : Option Nat
deriving DecidableEq, Repr

/-- `DirEntry::is_dir` from `src/types.rs`. -/
def DirEntry.is_dir (e : DirEntry) : Bool :=
  decide (e.object_type = some ObjectType.directory)

/-- `DirEntry::is_file` from `src/types.rs`. -/
def DirEntry.is_file (e : DirEntry) : Bool :=
  decide (e.object_type = some ObjectType.regular)

/-- `DirEntry::is_symlink` from `src/types.rs`. -/
def DirEntry.is_symlink (e : DirEntry) : Bool :=
  decide (e.object_type = some ObjectType.symlink)

/-- Little-endian read of `width` bytes starting at `offset` (out-of-range
positions contribute 0; callers perform the length check first, exactly as the
Rust reads do). -/
def readLE (buffer : List Nat) (offset : Nat) : Nat → Nat
  | 0 => 0
  | w + 1 => buffer.getD offset 0 + 256 * readLE buffer (offset + 1) w

/-- Two's-complement reinterpretation of an integer as a signed 32-bit value. -/
def signed32 (z : Int) : Int :=
  (z + 2 ^ 31) % 2 ^ 32 - 2 ^ 31

/-- Two's-complement reinterpretation of an integer as a signed 64-bit value. -/
def signed64 (z : Int) : Int :=
  (z + 2 ^ 63) % 2 ^ 64 - 2 ^ 63

/-- Rust's `i32 as usize` on a 64-bit target: sign-extend, then reinterpret
as unsigned. -/
def i32AsUsize (z : Int) : Nat :=
  (z % 2 ^ 64).toNat

/-- `BufferParser::read_u32` from `src/parser.rs`: bounds check against the
buffer slice length, then read 4 bytes native-endian. -/
def read_u32 (buffer : List Nat) (offset : Nat) : PRes ParseError Nat :=
  if offset + 4 ≤ buffer.length then PRes.ok (readLE buffer offset 4)
  else PRes.err ParseError.unexpectedEnd

/-- `BufferParser::read_u64` from `src/parser.rs`. -/
def read_u64 (buffer : List Nat) (offset : Nat) : PRes ParseError Nat :=
  if offset + 8 ≤ buffer.length then PRes.ok (readLE buffer offset 8)
  else PRes.err ParseError.unexpectedEnd

/-- `BufferParser::read_i32` from `src/parser.rs`. -/
def read_i32 (buffer : List Nat) (offset : Nat) : PRes ParseError Int :=
  if offset + 4 ≤ buffer.length then PRes.ok (signed32 (readLE buffer offset 4))
  else PRes.err ParseError.unexpectedEnd

/-- `BufferParser::read_i64` from `src/parser.rs`. -/
def read_i64 (buffer : List Nat) (offset : Nat) : PRes ParseError Int :=
  if offset + 8 ≤ buffer.length then PRes.ok (signed64 (readLE buffer offset 8))
  else PRes.err ParseError.unexpectedEnd

/-- `BufferParser::read_attribute_set` from `src/parser.rs`: check 20 bytes,
then read the five masks. -/
def read_attribute_set (buffer : List Nat) (offset : Nat) :
    PRes ParseError AttributeSet :=
  if offset + 20 ≤ buffer.length then
    PRes.ok ⟨readLE buffer offset 4, readLE buffer (offset + 4) 4,
      readLE buffer (offset + 8) 4, readLE buffer (offset + 12) 4,
      readLE buffer (offset + 16) 4⟩
  else PRes.err ParseError.unexpectedEnd

/-- `BufferParser::parse_attrreference_string` from `src/parser.rs`.
Reads the `(i32 offset, u32 length)` pair at `ref_offset`, computes
`string_start = (ref_offset as i32 + data_offset) as usize` and
`string_end = string_start + data_length` with release-mode wrapping, rejects
`string_end > buffer.len()` with `InvalidOffset`, then slices
`buffer[string_start..string_end]` — which panics when `string_start`
exceeds `string_end` — and trims at the first zero byte.  `entry_start` is
unused, exactly as `_entry_start` is in the source. -/
def parse_attrreference_string (buffer : List Nat) (entry_start ref_offset : Nat) :
    PRes ParseError (List Nat × Nat) :=
  match read_i32 buffer ref_offset with
  | PRes.err e => PRes.err e
  | PRes.panicked => PRes.panicked
  | PRes.ok data_offset =>
    match read_u32 buffer (ref_offset + 4) with
    | PRes.err e => PRes.err e
    | PRes.panicked => PRes.panicked
    | PRes.ok data_length =>
      let _ := entry_start
      let string_start : Nat := i32AsUsize (signed32 ((ref_offset : Int) + data_offset))
      let string_end : Nat := (string_start + data_length) % 2 ^ 64
      if string_end > buffer.length then PRes.err ParseError.invalidOffset
      else if string_end < string_start then PRes.panicked
      else
        let name_bytes := (buffer.drop string_start).take (string_end - string_start)
        let name_bytes := name_bytes.takeWhile (fun b => b != 0)
        PRes.ok (name_bytes, ref_offset + 8)

/-- `BufferParser::parse_timespec` from `src/parser.rs`: two consecutive
`i64` reads; the `(tv_sec, tv_nsec)` pair is kept raw (the `SystemTime`
construction is presentation). -/
def parse_timespec (buffer : List Nat) (offset : Nat) :
    PRes ParseError ((Int × Int) × Nat) :=
  match read_i64 buffer offset with
  | PRes.err e => PRes.err e
  | PRes.panicked => PRes.panicked
  | PRes.ok tv_sec =>
    match read_i64 buffer (offset + 8) with
    | PRes.err e => PRes.err e
    | PRes.panicked => PRes.panicked
    | PRes.ok tv_nsec => PRes.ok ((tv_sec, tv_nsec), offset + 16)

/-- One conditional fixed-width `u32` field of `parse_entry`: the pattern
`if bit set { field = Some(self.read_u32(offset)?); offset += 4; }`. -/
def readOptU32 (cond : Prop) [Decidable cond] (buffer : List Nat) (offset : Nat) :
    PRes ParseError (Option Nat × Nat) :=
  if cond then
    match read_u32 buffer offset with
    | PRes.err e => PRes.err e
    | PRes.panicked => PRes.panicked
    | PRes.ok v => PRes.ok (some v, offset + 4)
  else PRes.ok (none, offset)

/-- One conditional fixed-width `u64` field of `parse_entry`: the pattern
`if bit set { field = Some(self.read_u64(offset)?); offset += 8; }`. -/
def readOptU64 (cond : Prop) [Decidable cond] (buffer : List Nat) (offset : Nat) :
    PRes ParseError (Option Nat × Nat) :=
  if cond then
    match read_u64 buffer offset with
    | PRes.err e => PRes.err e
    | PRes.panicked => PRes.panicked
    | PRes.ok v => PRes.ok (some v, offset + 8)
  else PRes.ok (none, offset)

/-- The conditional name block of `parse_entry`: the pattern
`if bit set { (name, offset) = self.parse_attrreference_string(..)?; }` —
when the bit is clear the name stays `String::new()` (empty bytes). -/
def readOptName (cond : Prop) [Decidable cond] (buffer : List Nat)
    (entry_start offset : Nat) : PRes ParseError (List Nat × Nat) :=
  if cond then parse_attrreference_string buffer entry_start offset
  else PRes.ok ([], offset)

/-- The conditional modified-time block of `parse_entry`: the pattern
`if bit set { (time, offset) = self.parse_timespec(offset)?; }`. -/
def readOptTimespec (cond : Prop) [Decidable cond] (buffer : List Nat)
    (offset : Nat) : PRes ParseError (Option (Int × Int) × Nat) :=
  if cond then
    match parse_timespec buffer offset with
    | PRes.err e => PRes.err e
    | PRes.panicked => PRes.panicked
    | PRes.ok (t, o) => PRes.ok (some t, o)
  else PRes.ok (none, offset)

/-- The conditional entry-count block of `parse_entry`: the source reads the
`u32` but does not advance the offset afterwards (its comment: not needed). -/
def readOptEntryCount (cond : Prop) [Decidable cond] (buffer : List Nat)
    (offset : Nat) : PRes ParseError (Option Nat) :=
  if cond then
    match read_u32 buffer offset with
    | PRes.err e => PRes.err e
    | PRes.panicked => PRes.panicked
    | PRes.ok v => PRes.ok (some v)
  else PRes.ok none

/-- `BufferParser::parse_entry` from `src/parser.rs`: skip the 4-byte length
field, read the 20-byte returned-attribute bitmap, then extract each field in
the fixed wire order — each present only when its bit is set in the returned
bitmap — sequencing the fallible blocks with `PRes.bind` (the `?` operator).
Each pair is (field value, offset after the block).  `entry_length` is
received but never consulted, exactly as `_entry_length` is in the source. -/
def parse_entry (buffer : List Nat) (entry_start entry_length : Nat) :
    PRes ParseError DirEntry :=
  let _ := entry_length
  PRes.bind (read_attribute_set buffer (entry_start + 4)) fun returned =>
  PRes.bind (readOptName (returned.commonattr &&& 0x00000001 ≠ 0) buffer
      entry_start (entry_start + 4 + 20)) fun np =>
  PRes.bind (readOptU32 (returned.commonattr &&& 0x00000008 ≠ 0) buffer np.2)
      fun tp =>
  PRes.bind (readOptTimespec (returned.commonattr &&& 0x00000400 ≠ 0) buffer tp.2)
      fun mp =>
  PRes.bind (readOptU32 (returned.commonattr &&& 0x00020000 ≠ 0) buffer mp.2)
      fun pp =>
  PRes.bind (readOptU64 (returned.commonattr &&& 0x02000000 ≠ 0) buffer pp.2)
      fun ip =>
  PRes.bind (readOptU64 (returned.fileattr &&& 0x00000002 ≠ 0) buffer ip.2)
      fun sp =>
  PRes.bind (readOptU64 (returned.fileattr &&& 0x00000004 ≠ 0) buffer sp.2)
      fun ap =>
  PRes.bind (readOptEntryCount (returned.dirattr &&& 0x00000002 ≠ 0) buffer ap.2)
      fun entry_count =>
  PRes.ok ⟨np.1, (tp.1).map ObjectType.fromCode, sp.1, ap.1, mp.1, pp.1, ip.1,
    entry_count⟩

/-- The parser state from `src/parser.rs` (`struct BufferParser`): the buffer
slice, the read cursor, the count of valid bytes, and the (never consulted)
requested attributes. -/
structure BufferParser where
  buffer : List Nat
  offset : Nat
  bytes_valid : Nat
  requested : RequestedAttributes
deriving DecidableEq, Repr

/-- `BufferParser::next_entry` from `src/parser.rs`: `None` once the cursor
reaches `bytes_valid`; a zero length prefix is `InvalidEntryLength`; a length
past `bytes_valid` is `BufferTooSmall`; otherwise decode the record and
advance the cursor by the declared length (also when `parse_entry` fails). -/
def BufferParser.next_entry (p : BufferParser) :
    Option (PRes ParseError DirEntry) × BufferParser :=
  if p.offset ≥ p.bytes_valid then (none, p)
  else
    match read_u32 p.buffer p.offset with
    | PRes.err e => (some (PRes.err e), p)
    | PRes.panicked => (some PRes.panicked, p)
    | PRes.ok entry_length =>
      if entry_length = 0 then (some (PRes.err ParseError.invalidEntryLength), p)
      else if p.offset + entry_length > p.bytes_valid then
        (some (PRes.err ParseError.bufferTooSmall), p)
      else
        (some (parse_entry p.buffer p.offset entry_length),
         { p with offset := p.offset + entry_length })

/-- One outcome of a `getattrlistbulk` invocation, as classified by
`DirEntries::refill_buffer` in `src/iter.rs`: a negative result with `EINTR`,
a negative result with any other errno, a zero result, or a positive result
that filled the fetch buffer with `newBuffer` and reported `count` entries. -/
inductive FetchOutcome where
  | interrupted
  | failed
  | empty
  | filled (newBuffer : List Nat) (count : Nat)
deriving DecidableEq, Repr

/-- The loop body of `DirEntries::find_valid_bytes` from `src/iter.rs`, with
explicit structural fuel standing for the `while` loop (the loop makes at most
`buffer.len()` steps, since every step advances `offset` by a positive entry
length; `find_valid_bytes` supplies sufficient fuel and
`find_valid_bytes_go_spec` below proves the loop always reaches one of its
own stop conditions, never the fuel bound). -/
def find_valid_bytes_go (buffer : List Nat) : Nat → Nat → Nat
  | 0, offset => offset
  | fuel + 1, offset =>
    if offset + 4 ≤ buffer.length then
      if readLE buffer offset 4 = 0 then offset
      else if offset + readLE buffer offset 4 > buffer.length then offset
      else find_valid_bytes_go buffer fuel (offset + readLE buffer offset 4)
    else offset

/-- `DirEntries::find_valid_bytes` from `src/iter.rs`: scan record length
prefixes forward from the buffer start, summing consecutive positive lengths,
stopping at a zero prefix or a length extending past the buffer end. -/
def find_valid_bytes (buffer : List Nat) : Nat :=
  find_valid_bytes_go buffer (buffer.length + 1) 0

/-- The iterator state from `src/iter.rs` (`struct DirEntries`).  The file
descriptor is an external resource and is dropped from the model. -/
structure DirEntries where
  buffer : List Nat
  bytes_valid : Nat
  parser_offset : Nat
  requested : RequestedAttributes
  exhausted : Bool
  follow_symlinks : Bool
deriving DecidableEq, Repr

/-- `DirEntries::new` from `src/iter.rs`, after a successful `open`: a zeroed
buffer of the requested capacity, no valid bytes, cursor at zero, not
exhausted.  (The `open_directory` failure path is an external-resource error
that precedes any state of interest.) -/
def DirEntries.new (requested : RequestedAttributes) (buffer_size : Nat)
    (follow_symlinks : Bool) : DirEntries :=
  ⟨List.replicate buffer_size 0, 0, 0, requested, false, follow_symlinks⟩

/-- `DirEntries::refill_buffer` from `src/iter.rs`, driven by the oracle of
fetch outcomes.  `EINTR` retries the identical call on the rest of the oracle;
a failed call returns `Error::Syscall` leaving the state unchanged (in
particular `exhausted` is not set); a zero result sets `exhausted`; a positive
result installs the new buffer contents, sets `bytes_valid` from
`find_valid_bytes` (ignoring the reported entry count) and resets the cursor.
`none` means the oracle ran out of outcomes. -/
def DirEntries.refill_buffer (s : DirEntries) :
    List FetchOutcome → Option ((PRes StreamError Bool) × DirEntries × List FetchOutcome)
  | [] => none
  | FetchOutcome.interrupted :: rest => DirEntries.refill_buffer s rest
  | FetchOutcome.failed :: rest =>
      some (PRes.err StreamError.syscall, s, rest)
  | FetchOutcome.empty :: rest =>
      some (PRes.ok false, { s with exhausted := true }, rest)
  | FetchOutcome.filled newBuffer _count :: rest =>
      some (PRes.ok true,
        { s with buffer := newBuffer,
                 bytes_valid := find_valid_bytes newBuffer,
                 parser_offset := 0 },
        rest)

/-- `DirEntries::next_from_buffer` from `src/iter.rs`: build a fresh
`BufferParser` over the tail of the buffer starting at `parser_offset`, pull
one entry from it, and — only on success — advance `parser_offset` by the
record's length prefix.  On a parse error the state is returned unchanged. -/
def DirEntries.next_from_buffer (s : DirEntries) :
    Option (PRes StreamError DirEntry) × DirEntries :=
  if s.parser_offset ≥ s.bytes_valid then (none, s)
  else
    match (BufferParser.next_entry
        ⟨s.buffer.drop s.parser_offset, 0,
         s.bytes_valid - s.parser_offset, s.requested⟩).1 with
    | some (PRes.ok entry) =>
        (some (PRes.ok entry),
         { s with parser_offset := s.parser_offset + readLE s.buffer s.parser_offset 4 })
    | some (PRes.err e) => (some (PRes.err (StreamError.parse e)), s)
    | some PRes.panicked => (some PRes.panicked, s)
    | none => (none, s)

/-- The loop body of `<DirEntries as Iterator>::next` from `src/iter.rs`,
with structural fuel standing for the `loop` (each iteration past the first
consumes at least one oracle element, so `DirEntries.next` supplies
sufficient fuel).  Yields the pulled item (or `none` at end of stream), the
successor state, and the unconsumed oracle; the outer `none` means the oracle
ran out. -/
def DirEntries.next_go :
    Nat → DirEntries → List FetchOutcome →
    Option (Option (PRes StreamError DirEntry) × DirEntries × List FetchOutcome)
  | 0, _, _ => none
  | fuel + 1, s, oracle =>
    match DirEntries.next_from_buffer s with
    | (some r, s') => some (some r, s', oracle)
    | (none, _) =>
      if s.exhausted then some (none, s, oracle)
      else
        match DirEntries.refill_buffer s oracle with
        | none => none
        | some (PRes.err e, s', rest) => some (some (PRes.err e), s', rest)
        | some (PRes.ok false, s', rest) => some (none, s', rest)
        | some (PRes.ok true, s', rest) => DirEntries.next_go fuel s' rest
        | some (PRes.panicked, s', rest) => some (some PRes.panicked, s', rest)

/-- `<DirEntries as Iterator>::next`, with fuel covering any oracle. -/
def DirEntries.next (s : DirEntries) (oracle : List FetchOutcome) :
    Option (Option (PRes StreamError DirEntry) × DirEntries × List FetchOutcome) :=
  DirEntries.next_go (oracle.length + 1) s oracle

/-- `read_dir_with_buffer` from `src/lib.rs`: hand the caller's attributes to
`DirEntries::new` unchanged, following symlinks. -/
def read_dir_with_buffer (attrs : RequestedAttributes) (buffer_size : Nat) :
    DirEntries :=
  DirEntries.new attrs buffer_size true

/-- `read_dir` from `src/lib.rs`: `read_dir_with_buffer` with 64 KiB. -/
def read_dir (attrs : RequestedAttributes) : DirEntries :=
  read_dir_with_buffer attrs (64 * 1024)

/-- The builder state from `src/builder.rs` (`struct DirReader`); the path
is an external resource and is dropped from the model. -/
structure DirReader where
  attrs : RequestedAttributes
  buffer_size : Nat
  follow_symlinks : Bool
deriving DecidableEq, Repr

/-- `DirReader::new` from `src/builder.rs`: default attributes, 64 KiB
buffer, follow symlinks. -/
def DirReader.new : DirReader :=
  ⟨RequestedAttributes.default, 64 * 1024, true⟩

/-- `DirReader::read` from `src/builder.rs`: force the `name` flag on, then
construct the iterator. -/
def DirReader.read (r : DirReader) : DirEntries :=
  let attrs := r.attrs
  let attrs := if attrs.name then attrs else { attrs with name := true }
  DirEntries.new attrs r.buffer_size r.follow_symlinks

/-- Little-endian encoding of a value into 4 bytes. -/
def le4 (v : Nat) : List Nat :=
  [v % 256, v / 256 % 256, v / 65536 % 256, v / 16777216 % 256]

/-- Little-endian encoding of a value into 8 bytes. -/
def le8 (v : Nat) : List Nat :=
  le4 (v % 4294967296) ++ le4 (v / 4294967296)

/-- Modelled from the spec (§3, §6): a well-formed wire record carrying all
eight attributes with known field values, in the fixed wire order — 4-byte
length prefix, 20-byte returned-attribute bitmap
(common `0x0202_0409` = name + object-type + modified-time + permission-bits
+ unique-id, volume `0`, directory `0x2` = entry-count, file `0x6` =
total-size + allocated-size, fork `0`), then name-reference (offset `60`
pointing at the trailing name bytes, length `name.length`), object-type,
modified-time, permission-bits, unique-id, size, allocated-size, child-count,
and finally the referenced name bytes.  Total length `84 + name.length`,
recorded in the prefix.  This is the spec-side encoder used for the C6
round-trip claim. -/
def buildRecord (name : List Nat) (objtype : Nat) (sec nsec : Nat)
    (perms inode size alloc cnt : Nat) : List Nat :=
  le4 (84 + name.length) ++
  (le4 0x02020409 ++ (le4 0 ++ (le4 0x2 ++ (le4 0x6 ++ (le4 0 ++
  (le4 60 ++ (le4 name.length ++
  (le4 objtype ++
  (le8 sec ++ (le8 nsec ++
  (le4 perms ++
  (le8 inode ++
  (le8 size ++
  (le8 alloc ++
  (le4 cnt ++ name)))))))))))))))

/-- The scan relation of `find_valid_bytes` (claim C8): `o` reaches `n` by
summing consecutive positive record lengths, each read from the length prefix
at the current boundary and each staying inside the buffer. -/
inductive ScanReach (buffer : List Nat) : Nat → Nat → Prop where
  | refl (o : Nat) : ScanReach buffer o o
  | step (o n : Nat)
      (h4 : o + 4 ≤ buffer.length)
      (hne : readLE buffer o 4 ≠ 0)
      (hle : o + readLE buffer o 4 ≤ buffer.length)
      (hrest : ScanReach buffer (o + readLE buffer o 4) n) :
      ScanReach buffer o n

/-- A stopping position of the `find_valid_bytes` scan (claim C8): fewer
than 4 bytes remain, or the length prefix there is zero, or the declared
length would extend past the buffer end. -/
def scanStop (buffer : List Nat) (o : Nat) : Prop :=
  buffer.length < o + 4 ∨ readLE buffer o 4 = 0 ∨
    buffer.length < o + readLE buffer o 4

theorem readLE_cons_succ (a : Nat) (l : List Nat) (n w : Nat) :
    readLE (a :: l) (n + 1) w = readLE l n w := by
  induction w generalizing n with
  | zero => rfl
  | succ w ih =>
    simp only [readLE, List.getD_cons_succ]
    rw [ih (n + 1)]

theorem readLE_append_right (xs ys : List Nat) (n w : Nat) (h : xs.length ≤ n) :
    readLE (xs ++ ys) n w = readLE ys (n - xs.length) w := by
  induction xs generalizing n with
  | nil => simp
  | cons x xs ih =>
    cases n with
    | zero => simp at h
    | succ m =>
      simp only [List.cons_append, List.length_cons]
      rw [readLE_cons_succ]
      simp only [List.length_cons] at h
      rw [ih m (Nat.le_of_succ_le_succ h)]
      simp [Nat.succ_sub_succ]

theorem le4_length (v : Nat) : (le4 v).length = 4 := by
  simp [le4]

theorem le8_length (v : Nat) : (le8 v).length = 8 := by
  simp [le8, le4]

theorem readLE_le4_skip (v : Nat) (rest : List Nat) (n w : Nat) (h : 4 ≤ n) :
    readLE (le4 v ++ rest) n w = readLE rest (n - 4) w := by
  rw [readLE_append_right _ _ _ _ (by rw [le4_length]; exact h), le4_length]

theorem readLE_le8_skip (v : Nat) (rest : List Nat) (n w : Nat) (h : 8 ≤ n) :
    readLE (le8 v ++ rest) n w = readLE rest (n - 8) w := by
  rw [readLE_append_right _ _ _ _ (by rw [le8_length]; exact h), le8_length]

theorem readLE_le4 (v : Nat) (rest : List Nat) (h : v < 4294967296) :
    readLE (le4 v ++ rest) 0 4 = v := by
  simp only [le4, List.cons_append, List.nil_append, readLE, List.getD_cons_zero,
    List.getD_cons_succ, readLE_cons_succ]
  omega

theorem readLE_le8 (v : Nat) (rest : List Nat) (h : v < 18446744073709551616) :
    readLE (le8 v ++ rest) 0 8 = v := by
  simp only [le8, le4, List.cons_append, List.nil_append, List.append_assoc]
  simp only [readLE, List.getD_cons_zero, List.getD_cons_succ, readLE_cons_succ]
  omega

theorem drop_append_right (xs ys : List Nat) (n : Nat) (h : xs.length ≤ n) :
    (xs ++ ys).drop n = ys.drop (n - xs.length) := by
  induction xs generalizing n with
  | nil => simp
  | cons x xs ih =>
    cases n with
    | zero => simp at h
    | succ m =>
      simp only [List.cons_append, List.drop_succ_cons, List.length_cons]
      simp only [List.length_cons] at h
      rw [ih m (Nat.le_of_succ_le_succ h)]
      simp [Nat.succ_sub_succ]

theorem drop_le4_skip (v : Nat) (rest : List Nat) (n : Nat) (h : 4 ≤ n) :
    (le4 v ++ rest).drop n = rest.drop (n - 4) := by
  rw [drop_append_right _ _ _ (by rw [le4_length]; exact h), le4_length]

theorem drop_le8_skip (v : Nat) (rest : List Nat) (n : Nat) (h : 8 ≤ n) :
    (le8 v ++ rest).drop n = rest.drop (n - 8) := by
  rw [drop_append_right _ _ _ (by rw [le8_length]; exact h), le8_length]

theorem takeWhile_ne_zero (l : List Nat) (h : ∀ b ∈ l, b ≠ 0) :
    l.takeWhile (fun b => b != 0) = l := by
  rw [List.takeWhile_eq_self_iff]
  intro x hx
  simpa using h x hx

/-- C10: a `DirEntry` whose `object_type` is `none` is classified as neither
directory, file, nor symlink, and each helper answers `true` exactly when
`object_type` is `some` of the matching variant. -/
theorem dirEntry_type_helpers (e : DirEntry) (h : e.object_type = none) :
    (e.is_dir = false ∧ e.is_file = false ∧ e.is_symlink = false) ∧
    (∀ e' : DirEntry,
      (e'.is_dir = true ↔ e'.object_type = some ObjectType.directory) ∧
      (e'.is_file = true ↔ e'.object_type = some ObjectType.regular) ∧
      (e'.is_symlink = true ↔ e'.object_type = some ObjectType.symlink)) := by
  constructor
  · simp [DirEntry.is_dir, DirEntry.is_file, DirEntry.is_symlink, h]
  · intro e'
    simp [DirEntry.is_dir, DirEntry.is_file, DirEntry.is_symlink]

/-- Witness for C10, at a concrete nameless typeless entry. -/
theorem dirEntry_type_helpers_witness :
    let e : DirEntry := ⟨[], none, none, none, none, none, none, none⟩
    (e.is_dir = false ∧ e.is_file = false ∧ e.is_symlink = false) ∧
    (∀ e' : DirEntry,
      (e'.is_dir = true ↔ e'.object_type = some ObjectType.directory) ∧
      (e'.is_file = true ↔ e'.object_type = some ObjectType.regular) ∧
      (e'.is_symlink = true ↔ e'.object_type = some ObjectType.symlink)) :=
  dirEntry_type_helpers ⟨[], none, none, none, none, none, none, none⟩ rfl

/-- The length-prefix / yielded-item part of `BufferParser.next_entry` never
looks at the `requested` field, so its yielded item is the same for any two
requests over the same buffer, cursor and valid count. -/
theorem next_entry_requested_irrelevant (buffer : List Nat) (off bv : Nat)
    (req1 req2 : RequestedAttributes) :
    (BufferParser.next_entry ⟨buffer, off, bv, req1⟩).1 =
      (BufferParser.next_entry ⟨buffer, off, bv, req2⟩).1 := by
  unfold BufferParser.next_entry
  by_cases hob : off ≥ bv
  · simp [hob]
  · cases hru : read_u32 buffer off with
    | err e => simp [hob, hru]
    | panicked => simp [hob, hru]
    | ok n =>
      by_cases h0 : n = 0
      · simp [hob, hru, h0]
      · by_cases h2 : off + n > bv <;> simp [hob, hru, h0, h2]

/-- C1 (amended): only `DirReader::read` forces the name flag on; `read_dir`
and `read_dir_with_buffer` hand the caller's attributes to the stream
unchanged. -/
theorem name_flag_normalization (r : DirReader) (attrs : RequestedAttributes)
    (buffer_size : Nat) :
    (r.read).requested.name = true ∧
    (read_dir_with_buffer attrs buffer_size).requested = attrs ∧
    (read_dir attrs).requested = attrs := by
  refine ⟨?_, rfl, rfl⟩
  unfold DirReader.read
  cases h : r.attrs.name <;> simp [DirEntries.new, h]

/-- Witness for C1's amended theorem, at the default builder and the
all-attributes request. -/
theorem name_flag_normalization_witness :
    (DirReader.new.read).requested.name = true ∧
    (read_dir_with_buffer RequestedAttributes.all 1024).requested =
      RequestedAttributes.all ∧
    (read_dir RequestedAttributes.all).requested = RequestedAttributes.all :=
  name_flag_normalization DirReader.new RequestedAttributes.all 1024

/-- C1 (counterexample): a stream built through `read_dir_with_buffer` with
the name flag false keeps it false, and the `attrlist` its fetches would use
has the NAME bit (0x1) clear — the name flag is not forced to true on this
construction path. -/
theorem name_flag_not_forced_cex :
    (read_dir_with_buffer RequestedAttributes.default 1024).requested.name = false ∧
    ((read_dir_with_buffer RequestedAttributes.default 1024).requested.into_attrlist).commonattr
        &&& 0x00000001 = 0 := by
  decide

/-- C7 (counterexample): a record whose returned bitmap announces the
object-type bit decodes to an entry with `object_type` present even though the
caller's request (`RequestedAttributes.default`) had every flag false — the
decoder never consults the request. -/
theorem presence_ignores_request_cex :
    BufferParser.next_entry
        ⟨[28, 0, 0, 0,  8, 0, 0, 0,  0, 0, 0, 0,  0, 0, 0, 0,
          0, 0, 0, 0,  0, 0, 0, 0,  1, 0, 0, 0], 0, 28,
         RequestedAttributes.default⟩ =
      (some (PRes.ok ⟨[], some ObjectType.regular, none, none, none, none, none, none⟩),
       ⟨[28, 0, 0, 0,  8, 0, 0, 0,  0, 0, 0, 0,  0, 0, 0, 0,
         0, 0, 0, 0,  0, 0, 0, 0,  1, 0, 0, 0], 28, 28,
        RequestedAttributes.default⟩) ∧
    RequestedAttributes.default.object_type = false := by
  decide

theorem PRes.bind_ok {ε α β : Type} (a : α) (f : α → PRes ε β) :
    PRes.bind (PRes.ok a) f = f a := rfl

theorem PRes.bind_err {ε α β : Type} (e : ε) (f : α → PRes ε β) :
    PRes.bind (PRes.err e) f = PRes.err e := rfl

theorem PRes.bind_panicked {ε α β : Type} (f : α → PRes ε β) :
    PRes.bind (PRes.panicked : PRes ε α) f = PRes.panicked := rfl

theorem readOptU32_ok_isSome (cond : Prop) [Decidable cond] (buffer : List Nat)
    (o : Nat) (x : Option Nat) (o' : Nat)
    (h : readOptU32 cond buffer o = PRes.ok (x, o')) : x.isSome ↔ cond := by
  unfold readOptU32 at h
  split at h
  · cases hr : read_u32 buffer o with
    | err e => simp only [hr] at h; exact PRes.noConfusion h
    | panicked => simp only [hr] at h; exact PRes.noConfusion h
    | ok v =>
      simp only [hr, PRes.ok.injEq, Prod.mk.injEq] at h
      obtain ⟨h1, h2⟩ := h
      subst h1
      simp_all
  · simp_all

theorem readOptU64_ok_isSome (cond : Prop) [Decidable cond] (buffer : List Nat)
    (o : Nat) (x : Option Nat) (o' : Nat)
    (h : readOptU64 cond buffer o = PRes.ok (x, o')) : x.isSome ↔ cond := by
  unfold readOptU64 at h
  split at h
  · cases hr : read_u64 buffer o with
    | err e => simp only [hr] at h; exact PRes.noConfusion h
    | panicked => simp only [hr] at h; exact PRes.noConfusion h
    | ok v =>
      simp only [hr, PRes.ok.injEq, Prod.mk.injEq] at h
      obtain ⟨h1, h2⟩ := h
      subst h1
      simp_all
  · simp_all

theorem readOptTimespec_ok_isSome (cond : Prop) [Decidable cond] (buffer : List Nat)
    (o : Nat) (x : Option (Int × Int)) (o' : Nat)
    (h : readOptTimespec cond buffer o = PRes.ok (x, o')) : x.isSome ↔ cond := by
  unfold readOptTimespec at h
  split at h
  · cases hr : parse_timespec buffer o with
    | err e => simp only [hr] at h; exact PRes.noConfusion h
    | panicked => simp only [hr] at h; exact PRes.noConfusion h
    | ok pr =>
      obtain ⟨t, o2⟩ := pr
      simp only [hr, PRes.ok.injEq, Prod.mk.injEq] at h
      obtain ⟨h1, h2⟩ := h
      subst h1
      simp_all
  · simp_all

theorem readOptEntryCount_ok_isSome (cond : Prop) [Decidable cond]
    (buffer : List Nat) (o : Nat) (x : Option Nat)
    (h : readOptEntryCount cond buffer o = PRes.ok x) : x.isSome ↔ cond := by
  unfold readOptEntryCount at h
  split at h
  · cases hr : read_u32 buffer o with
    | err e => simp only [hr] at h; exact PRes.noConfusion h
    | panicked => simp only [hr] at h; exact PRes.noConfusion h
    | ok v =>
      simp only [hr, PRes.ok.injEq] at h
      subst h
      simp_all
  · simp_all

/-- C7 (amended): on a successfully decoded record, each optional field is
present exactly when the corresponding bit of the record's returned-attribute
bitmap is set; the caller's requested flags are never consulted by the
decoder (its yielded item is identical under any two requests). -/
theorem parse_entry_presence (buffer : List Nat) (start len : Nat)
    (A : AttributeSet) (e : DirEntry)
    (hA : read_attribute_set buffer (start + 4) = PRes.ok A)
    (h : parse_entry buffer start len = PRes.ok e) :
    ((e.object_type.isSome ↔ A.commonattr &&& 0x00000008 ≠ 0) ∧
     (e.modified_time.isSome ↔ A.commonattr &&& 0x00000400 ≠ 0) ∧
     (e.permissions.isSome ↔ A.commonattr &&& 0x00020000 ≠ 0) ∧
     (e.inode.isSome ↔ A.commonattr &&& 0x02000000 ≠ 0) ∧
     (e.size.isSome ↔ A.fileattr &&& 0x00000002 ≠ 0) ∧
     (e.alloc_size.isSome ↔ A.fileattr &&& 0x00000004 ≠ 0) ∧
     (e.entry_count.isSome ↔ A.dirattr &&& 0x00000002 ≠ 0)) ∧
    (∀ req1 req2 : RequestedAttributes, ∀ off bv : Nat,
      (BufferParser.next_entry ⟨buffer, off, bv, req1⟩).1 =
        (BufferParser.next_entry ⟨buffer, off, bv, req2⟩).1) := by
  refine ⟨?_, fun req1 req2 off bv =>
    next_entry_requested_irrelevant buffer off bv req1 req2⟩
  unfold parse_entry at h
  simp only [hA, PRes.bind_ok, PRes.bind_err, PRes.bind_panicked] at h
  cases h1 : readOptName (A.commonattr &&& 0x00000001 ≠ 0) buffer start (start + 4 + 20) with
  | err e1 => simp only [h1, PRes.bind_ok, PRes.bind_err, PRes.bind_panicked] at h; exact PRes.noConfusion h
  | panicked => simp only [h1, PRes.bind_ok, PRes.bind_err, PRes.bind_panicked] at h; exact PRes.noConfusion h
  | ok pr1 =>
  obtain ⟨nm, o1⟩ := pr1
  simp only [h1, PRes.bind_ok, PRes.bind_err, PRes.bind_panicked] at h
  cases h2 : readOptU32 (A.commonattr &&& 0x00000008 ≠ 0) buffer o1 with
  | err e2 => simp only [h2, PRes.bind_ok, PRes.bind_err, PRes.bind_panicked] at h; exact PRes.noConfusion h
  | panicked => simp only [h2, PRes.bind_ok, PRes.bind_err, PRes.bind_panicked] at h; exact PRes.noConfusion h
  | ok pr2 =>
  obtain ⟨vtype, o2⟩ := pr2
  simp only [h2, PRes.bind_ok, PRes.bind_err, PRes.bind_panicked] at h
  cases h3 : readOptTimespec (A.commonattr &&& 0x00000400 ≠ 0) buffer o2 with
  | err e3 => simp only [h3, PRes.bind_ok, PRes.bind_err, PRes.bind_panicked] at h; exact PRes.noConfusion h
  | panicked => simp only [h3, PRes.bind_ok, PRes.bind_err, PRes.bind_panicked] at h; exact PRes.noConfusion h
  | ok pr3 =>
  obtain ⟨mtime, o3⟩ := pr3
  simp only [h3, PRes.bind_ok, PRes.bind_err, PRes.bind_panicked] at h
  cases h4 : readOptU32 (A.commonattr &&& 0x00020000 ≠ 0) buffer o3 with
  | err e4 => simp only [h4, PRes.bind_ok, PRes.bind_err, PRes.bind_panicked] at h; exact PRes.noConfusion h
  | panicked => simp only [h4, PRes.bind_ok, PRes.bind_err, PRes.bind_panicked] at h; exact PRes.noConfusion h
  | ok pr4 =>
  obtain ⟨perms, o4⟩ := pr4
  simp only [h4, PRes.bind_ok, PRes.bind_err, PRes.bind_panicked] at h
  cases h5 : readOptU64 (A.commonattr &&& 0x02000000 ≠ 0) buffer o4 with
  | err e5 => simp only [h5, PRes.bind_ok, PRes.bind_err, PRes.bind_panicked] at h; exact PRes.noConfusion h
  | panicked => simp only [h5, PRes.bind_ok, PRes.bind_err, PRes.bind_panicked] at h; exact PRes.noConfusion h
  | ok pr5 =>
  obtain ⟨ino, o5⟩ := pr5
  simp only [h5, PRes.bind_ok, PRes.bind_err, PRes.bind_panicked] at h
  cases h6 : readOptU64 (A.fileattr &&& 0x00000002 ≠ 0) buffer o5 with
  | err e6 => simp only [h6, PRes.bind_ok, PRes.bind_err, PRes.bind_panicked] at h; exact PRes.noConfusion h
  | panicked => simp only [h6, PRes.bind_ok, PRes.bind_err, PRes.bind_panicked] at h; exact PRes.noConfusion h
  | ok pr6 =>
  obtain ⟨sz, o6⟩ := pr6
  simp only [h6, PRes.bind_ok, PRes.bind_err, PRes.bind_panicked] at h
  cases h7 : readOptU64 (A.fileattr &&& 0x00000004 ≠ 0) buffer o6 with
  | err e7 => simp only [h7, PRes.bind_ok, PRes.bind_err, PRes.bind_panicked] at h; exact PRes.noConfusion h
  | panicked => simp only [h7, PRes.bind_ok, PRes.bind_err, PRes.bind_panicked] at h; exact PRes.noConfusion h
  | ok pr7 =>
  obtain ⟨al, o7⟩ := pr7
  simp only [h7, PRes.bind_ok, PRes.bind_err, PRes.bind_panicked] at h
  cases h8 : readOptEntryCount (A.dirattr &&& 0x00000002 ≠ 0) buffer o7 with
  | err e8 => simp only [h8, PRes.bind_ok, PRes.bind_err, PRes.bind_panicked] at h; exact PRes.noConfusion h
  | panicked => simp only [h8, PRes.bind_ok, PRes.bind_err, PRes.bind_panicked] at h; exact PRes.noConfusion h
  | ok cnt =>
  simp only [h8, PRes.bind_ok, PRes.bind_err, PRes.bind_panicked] at h
  injection h with h
  subst h
  refine ⟨?_, ?_, ?_, ?_, ?_, ?_, ?_⟩
  · simpa using readOptU32_ok_isSome _ buffer o1 vtype o2 h2
  · simpa using readOptTimespec_ok_isSome _ buffer o2 mtime o3 h3
  · simpa using readOptU32_ok_isSome _ buffer o3 perms o4 h4
  · simpa using readOptU64_ok_isSome _ buffer o4 ino o5 h5
  · simpa using readOptU64_ok_isSome _ buffer o5 sz o6 h6
  · simpa using readOptU64_ok_isSome _ buffer o6 al o7 h7
  · simpa using readOptEntryCount_ok_isSome _ buffer o7 cnt h8

/-- Witness for C7's amended theorem, at the 28-byte single-record buffer
whose returned bitmap announces only the object-type bit. -/
theorem parse_entry_presence_witness :
    read_attribute_set
        [28, 0, 0, 0,  8, 0, 0, 0,  0, 0, 0, 0,  0, 0, 0, 0,
         0, 0, 0, 0,  0, 0, 0, 0,  1, 0, 0, 0] (0 + 4) =
      PRes.ok ⟨8, 0, 0, 0, 0⟩ ∧
    parse_entry
        [28, 0, 0, 0,  8, 0, 0, 0,  0, 0, 0, 0,  0, 0, 0, 0,
         0, 0, 0, 0,  0, 0, 0, 0,  1, 0, 0, 0] 0 28 =
      PRes.ok ⟨[], some ObjectType.regular, none, none, none, none, none, none⟩ ∧
    (((some ObjectType.regular : Option ObjectType).isSome ↔
        (8 : Nat) &&& 0x00000008 ≠ 0) ∧
     ((none : Option (Int × Int)).isSome ↔ (8 : Nat) &&& 0x00000400 ≠ 0) ∧
     ((none : Option Nat).isSome ↔ (8 : Nat) &&& 0x00020000 ≠ 0) ∧
     ((none : Option Nat).isSome ↔ (8 : Nat) &&& 0x02000000 ≠ 0) ∧
     ((none : Option Nat).isSome ↔ (0 : Nat) &&& 0x00000002 ≠ 0) ∧
     ((none : Option Nat).isSome ↔ (0 : Nat) &&& 0x00000004 ≠ 0) ∧
     ((none : Option Nat).isSome ↔ (0 : Nat) &&& 0x00000002 ≠ 0)) :=
  ⟨by decide, by decide,
   (parse_entry_presence
     [28, 0, 0, 0,  8, 0, 0, 0,  0, 0, 0, 0,  0, 0, 0, 0,
      0, 0, 0, 0,  0, 0, 0, 0,  1, 0, 0, 0] 0 28 ⟨8, 0, 0, 0, 0⟩
     ⟨[], some ObjectType.regular, none, none, none, none, none, none⟩
     (by decide) (by decide)).1⟩

/-- C5 (amended): every fixed-width read is bounds-checked against the length
of the parser's buffer slice only — it fails with `UnexpectedEnd` exactly when
the read would extend past the end of that slice, and succeeds otherwise; the
record's declared length and the valid-byte count are not consulted by these
reads. -/
theorem fixed_reads_bounds (buffer : List Nat) (offset : Nat) :
    (read_u32 buffer offset = PRes.err ParseError.unexpectedEnd ↔
      buffer.length < offset + 4) ∧
    (read_u64 buffer offset = PRes.err ParseError.unexpectedEnd ↔
      buffer.length < offset + 8) ∧
    (read_i32 buffer offset = PRes.err ParseError.unexpectedEnd ↔
      buffer.length < offset + 4) ∧
    (read_i64 buffer offset = PRes.err ParseError.unexpectedEnd ↔
      buffer.length < offset + 8) ∧
    (offset + 4 ≤ buffer.length →
      read_u32 buffer offset = PRes.ok (readLE buffer offset 4)) ∧
    (offset + 8 ≤ buffer.length →
      read_u64 buffer offset = PRes.ok (readLE buffer offset 8)) := by
  unfold read_u32 read_u64 read_i32 read_i64
  refine ⟨?_, ?_, ?_, ?_, fun h => by simp [h], fun h => by simp [h]⟩ <;>
    split <;> simp_all

/-- Witness for C5's amended theorem, at a two-byte buffer and offset zero. -/
theorem fixed_reads_bounds_witness :
    (read_u32 [1, 2] 0 = PRes.err ParseError.unexpectedEnd ↔
      ([1, 2] : List Nat).length < 0 + 4) ∧
    (read_u64 [1, 2] 0 = PRes.err ParseError.unexpectedEnd ↔
      ([1, 2] : List Nat).length < 0 + 8) ∧
    (read_i32 [1, 2] 0 = PRes.err ParseError.unexpectedEnd ↔
      ([1, 2] : List Nat).length < 0 + 4) ∧
    (read_i64 [1, 2] 0 = PRes.err ParseError.unexpectedEnd ↔
      ([1, 2] : List Nat).length < 0 + 8) ∧
    (0 + 4 ≤ ([1, 2] : List Nat).length →
      read_u32 [1, 2] 0 = PRes.ok (readLE [1, 2] 0 4)) ∧
    (0 + 8 ≤ ([1, 2] : List Nat).length →
      read_u64 [1, 2] 0 = PRes.ok (readLE [1, 2] 0 8)) :=
  fixed_reads_bounds [1, 2] 0

/-- C5 (counterexample): a record declaring length 28 whose returned bitmap
announces the unique-id bit makes the decoder read bytes 24..32 — past the
record's declared length (28) and past the valid span (28) — yet the read
succeeds and the record decodes without any `UnexpectedEnd`, because the
reads are checked only against the 32-byte buffer. -/
theorem read_past_record_cex :
    (24 + 8 > 28) ∧
    BufferParser.next_entry
        ⟨[28, 0, 0, 0,  0, 0, 0, 2,  0, 0, 0, 0,  0, 0, 0, 0,
          0, 0, 0, 0,  0, 0, 0, 0,  9, 9, 9, 9,  9, 9, 9, 9], 0, 28,
         RequestedAttributes.default⟩ =
      (some (PRes.ok ⟨[], none, none, none, none, none,
          some 651061555542690057, none⟩),
       ⟨[28, 0, 0, 0,  0, 0, 0, 2,  0, 0, 0, 0,  0, 0, 0, 0,
         0, 0, 0, 0,  0, 0, 0, 0,  9, 9, 9, 9,  9, 9, 9, 9], 28, 28,
        RequestedAttributes.default⟩) := by
  decide

/-- C9 (amended): at a cursor position strictly inside the valid span, a zero
length prefix yields `InvalidEntryLength`, a nonzero declared length exceeding
the remaining valid bytes yields `BufferTooSmall`, and a prefix extending past
the buffer itself yields `UnexpectedEnd` — in every case the parser state is
unchanged and nothing outside the buffer is touched; the prefix read, however,
is bounds-checked against the whole buffer, not the valid span. -/
theorem next_entry_prefix_classification (p : BufferParser)
    (hlt : p.offset < p.bytes_valid) :
    (p.offset + 4 ≤ p.buffer.length → readLE p.buffer p.offset 4 = 0 →
      BufferParser.next_entry p = (some (PRes.err ParseError.invalidEntryLength), p)) ∧
    (p.offset + 4 ≤ p.buffer.length → readLE p.buffer p.offset 4 ≠ 0 →
      p.bytes_valid < p.offset + readLE p.buffer p.offset 4 →
      BufferParser.next_entry p = (some (PRes.err ParseError.bufferTooSmall), p)) ∧
    (p.buffer.length < p.offset + 4 →
      BufferParser.next_entry p = (some (PRes.err ParseError.unexpectedEnd), p)) := by
  refine ⟨fun h4 h0 => ?_, fun h4 hne hbv => ?_, fun hlen => ?_⟩
  · unfold BufferParser.next_entry read_u32
    rw [if_neg (by omega), if_pos h4]
    simp [h0]
  · unfold BufferParser.next_entry read_u32
    rw [if_neg (by omega), if_pos h4]
    simp only []
    rw [if_neg hne]
    rw [if_pos (by omega)]
  · unfold BufferParser.next_entry read_u32
    rw [if_neg (by omega), if_neg (by omega)]

/-- Witness for C9's amended theorem: a four-byte zero buffer with four valid
bytes yields `InvalidEntryLength` and leaves the parser unchanged. -/
theorem next_entry_prefix_classification_witness :
    BufferParser.next_entry ⟨[0, 0, 0, 0], 0, 4, RequestedAttributes.default⟩ =
      (some (PRes.err ParseError.invalidEntryLength),
       ⟨[0, 0, 0, 0], 0, 4, RequestedAttributes.default⟩) :=
  (next_entry_prefix_classification
      ⟨[0, 0, 0, 0], 0, 4, RequestedAttributes.default⟩ (by decide)).1
    (by decide) (by decide)

/-- C9 (counterexample): two buffers agreeing on their whole two-byte valid
span produce different outcomes — `InvalidEntryLength` versus
`BufferTooSmall` — so the length-prefix read consumed bytes beyond the valid
span (it is checked against the buffer length, not the valid count). -/
theorem prefix_read_beyond_valid_span_cex :
    ([0, 0, 0, 0, 0, 0, 0, 0] : List Nat).take 2 =
      ([0, 0, 7, 0, 0, 0, 0, 0] : List Nat).take 2 ∧
    (BufferParser.next_entry
        ⟨[0, 0, 0, 0, 0, 0, 0, 0], 0, 2, RequestedAttributes.default⟩).1 =
      some (PRes.err ParseError.invalidEntryLength) ∧
    (BufferParser.next_entry
        ⟨[0, 0, 7, 0, 0, 0, 0, 0], 0, 2, RequestedAttributes.default⟩).1 =
      some (PRes.err ParseError.bufferTooSmall) := by
  decide

theorem getD_drop (l : List Nat) (n m : Nat) :
    (l.drop n).getD m 0 = l.getD (n + m) 0 := by
  induction l generalizing n with
  | nil => simp
  | cons x l ih =>
    cases n with
    | zero => simp
    | succ k => simp [Nat.succ_add, ih k]

theorem readLE_drop (l : List Nat) (n m w : Nat) :
    readLE (l.drop n) m w = readLE l (n + m) w := by
  induction w generalizing m with
  | zero => rfl
  | succ w ih => simp [readLE, getD_drop, ih, Nat.add_assoc]

theorem next_entry_ok_nonzero (p : BufferParser) (e : DirEntry)
    (h : (BufferParser.next_entry p).1 = some (PRes.ok e)) :
    readLE p.buffer p.offset 4 ≠ 0 := by
  unfold BufferParser.next_entry at h
  split at h
  · simp at h
  · cases hr : read_u32 p.buffer p.offset with
    | err e1 => simp [hr] at h
    | panicked => simp [hr] at h
    | ok len =>
      simp only [hr] at h
      have hlen : len = readLE p.buffer p.offset 4 := by
        unfold read_u32 at hr
        split at hr
        · simp only [PRes.ok.injEq] at hr
          exact hr.symm
        · exact absurd hr (by simp)
      subst hlen
      split at h
      · simp at h
      · rename_i h0
        exact h0

/-- C3 (amended): a pull that yields a decoded entry advances the stream
cursor by exactly the record's length prefix (a strictly positive amount); a
pull that yields a per-record parse error returns the state unchanged, so the
cursor does not advance and the same bytes are decoded again — yielding the
identical error — on every subsequent pull. -/
theorem cursor_advance_on_ok_only (s : DirEntries) :
    (∀ (e : DirEntry) (s' : DirEntries),
      DirEntries.next_from_buffer s = (some (PRes.ok e), s') →
      s'.parser_offset = s.parser_offset + readLE s.buffer s.parser_offset 4 ∧
      s.parser_offset < s'.parser_offset) ∧
    (∀ (r : StreamError) (s' : DirEntries),
      DirEntries.next_from_buffer s = (some (PRes.err r), s') → s' = s) := by
  constructor
  · intro e s' h
    unfold DirEntries.next_from_buffer at h
    split at h
    · simp at h
    · cases hne : (BufferParser.next_entry
          ⟨s.buffer.drop s.parser_offset, 0,
           s.bytes_valid - s.parser_offset, s.requested⟩).1 with
      | none => rw [hne] at h; simp at h
      | some pr =>
        cases pr with
        | err pe => rw [hne] at h; simp at h
        | panicked => rw [hne] at h; simp at h
        | ok entry =>
          rw [hne] at h
          simp only [Prod.mk.injEq] at h
          obtain ⟨h1, h2⟩ := h
          subst h2
          refine ⟨rfl, ?_⟩
          have hnz := next_entry_ok_nonzero
            ⟨s.buffer.drop s.parser_offset, 0,
             s.bytes_valid - s.parser_offset, s.requested⟩ entry hne
          rw [readLE_drop] at hnz
          simp only [Nat.add_zero] at hnz
          simp only [DirEntries.parser_offset]
          omega
  · intro r s' h
    unfold DirEntries.next_from_buffer at h
    split at h
    · simp at h
    · cases hne : (BufferParser.next_entry
          ⟨s.buffer.drop s.parser_offset, 0,
           s.bytes_valid - s.parser_offset, s.requested⟩).1 with
      | none => rw [hne] at h; simp at h
      | some pr =>
        cases pr with
        | ok entry => rw [hne] at h; simp at h
        | panicked => rw [hne] at h; simp at h
        | err pe =>
          rw [hne] at h
          simp only [Prod.mk.injEq] at h
          exact h.2.symm

/-- Witness for C3's amended theorem: pulling from a buffered state holding
one well-formed 24-byte record advances the cursor from 0 to 24. -/
theorem cursor_advance_on_ok_only_witness :
    DirEntries.next_from_buffer
        ⟨[24, 0, 0, 0,  0, 0, 0, 0,  0, 0, 0, 0,  0, 0, 0, 0,
          0, 0, 0, 0,  0, 0, 0, 0], 24, 0,
         RequestedAttributes.default, false, true⟩ =
      (some (PRes.ok ⟨[], none, none, none, none, none, none, none⟩),
       ⟨[24, 0, 0, 0,  0, 0, 0, 0,  0, 0, 0, 0,  0, 0, 0, 0,
         0, 0, 0, 0,  0, 0, 0, 0], 24, 24,
        RequestedAttributes.default, false, true⟩) ∧
    (24 : Nat) = 0 + readLE
        [24, 0, 0, 0,  0, 0, 0, 0,  0, 0, 0, 0,  0, 0, 0, 0,
         0, 0, 0, 0,  0, 0, 0, 0] 0 4 ∧
    (0 : Nat) < 24 :=
  ⟨by decide,
   by exact ((cursor_advance_on_ok_only
      ⟨[24, 0, 0, 0,  0, 0, 0, 0,  0, 0, 0, 0,  0, 0, 0, 0,
        0, 0, 0, 0,  0, 0, 0, 0], 24, 0,
       RequestedAttributes.default, false, true⟩).1
      ⟨[], none, none, none, none, none, none, none⟩
      ⟨[24, 0, 0, 0,  0, 0, 0, 0,  0, 0, 0, 0,  0, 0, 0, 0,
        0, 0, 0, 0,  0, 0, 0, 0], 24, 24,
       RequestedAttributes.default, false, true⟩ (by decide)).1,
   by decide⟩

/-- C3 (counterexample): a record whose length prefix is fine but whose name
reference lies past the buffer end makes the pull yield a parse-error item
while returning the state completely unchanged — the cursor does not move
past the malformed record, so every subsequent pull re-decodes the same bytes
and yields the same error forever. -/
theorem parse_error_cursor_stuck_cex :
    DirEntries.next_from_buffer
        ⟨[24, 0, 0, 0,  1, 0, 0, 0,  0, 0, 0, 0,  0, 0, 0, 0,
          0, 0, 0, 0,  0, 0, 0, 0], 24, 0,
         RequestedAttributes.default, false, true⟩ =
      (some (PRes.err (StreamError.parse ParseError.unexpectedEnd)),
       ⟨[24, 0, 0, 0,  1, 0, 0, 0,  0, 0, 0, 0,  0, 0, 0, 0,
         0, 0, 0, 0,  0, 0, 0, 0], 24, 0,
        RequestedAttributes.default, false, true⟩) := by
  decide

/-- C2 (amended): after a zero-result fetch the stream latches `exhausted`,
and a latched stream with its span consumed yields no item and consumes no
oracle entry (issues no bulk call) on every pull; a failed fetch, however,
returns `Error::Syscall` with the state unchanged — `exhausted` is not set,
so the next pull attempts another fetch. -/
theorem exhausted_latch (s : DirEntries) (oracle : List FetchOutcome)
    (rest : List FetchOutcome)
    (hex : s.exhausted = true) (hpo : s.bytes_valid ≤ s.parser_offset) :
    DirEntries.next s oracle = some (none, s, oracle) ∧
    (∀ s0 : DirEntries,
      DirEntries.refill_buffer s0 (FetchOutcome.empty :: rest) =
        some (PRes.ok false, { s0 with exhausted := true }, rest) ∧
      DirEntries.refill_buffer s0 (FetchOutcome.failed :: rest) =
        some (PRes.err StreamError.syscall, s0, rest)) := by
  refine ⟨?_, fun s0 => ⟨rfl, rfl⟩⟩
  unfold DirEntries.next DirEntries.next_go DirEntries.next_from_buffer
  rw [if_pos (by omega)]
  simp [hex]

/-- Witness for C2's amended theorem, at a latched empty stream. -/
theorem exhausted_latch_witness :
    DirEntries.next ⟨[], 0, 0, RequestedAttributes.default, true, true⟩
        [FetchOutcome.failed] =
      some (none, ⟨[], 0, 0, RequestedAttributes.default, true, true⟩,
        [FetchOutcome.failed]) ∧
    (∀ s0 : DirEntries,
      DirEntries.refill_buffer s0 [FetchOutcome.empty] =
        some (PRes.ok false, { s0 with exhausted := true }, []) ∧
      DirEntries.refill_buffer s0 [FetchOutcome.failed] =
        some (PRes.err StreamError.syscall, s0, [])) :=
  exhausted_latch ⟨[], 0, 0, RequestedAttributes.default, true, true⟩
    [FetchOutcome.failed] [] rfl (by decide)

/-- C2 (counterexample): after a failed (non-interruption) fetch the stream
yields the Syscall error but does not latch: the very next pull consumes the
next oracle entry — issuing another bulk call — and yields a decoded entry.
The first pull leaves the freshly constructed state unchanged (in particular
`exhausted = false`); the second pull's unconsumed oracle shrinks from one
element to zero, witnessing the forbidden further fetch. -/
theorem failed_fetch_not_latched_cex :
    DirEntries.next (DirEntries.new RequestedAttributes.default 8 true)
        [FetchOutcome.failed,
         FetchOutcome.filled
           [24, 0, 0, 0,  0, 0, 0, 0,  0, 0, 0, 0,  0, 0, 0, 0,
            0, 0, 0, 0,  0, 0, 0, 0] 1] =
      some (some (PRes.err StreamError.syscall),
        DirEntries.new RequestedAttributes.default 8 true,
        [FetchOutcome.filled
           [24, 0, 0, 0,  0, 0, 0, 0,  0, 0, 0, 0,  0, 0, 0, 0,
            0, 0, 0, 0,  0, 0, 0, 0] 1]) ∧
    DirEntries.next (DirEntries.new RequestedAttributes.default 8 true)
        [FetchOutcome.filled
           [24, 0, 0, 0,  0, 0, 0, 0,  0, 0, 0, 0,  0, 0, 0, 0,
            0, 0, 0, 0,  0, 0, 0, 0] 1] =
      some (some (PRes.ok ⟨[], none, none, none, none, none, none, none⟩),
        ⟨[24, 0, 0, 0,  0, 0, 0, 0,  0, 0, 0, 0,  0, 0, 0, 0,
          0, 0, 0, 0,  0, 0, 0, 0], 24, 24,
         RequestedAttributes.default, false, true⟩, []) := by
  decide

theorem find_valid_bytes_go_spec (buffer : List Nat) (fuel : Nat) :
    ∀ off, buffer.length - off < fuel → off ≤ buffer.length →
    find_valid_bytes_go buffer fuel off ≤ buffer.length ∧
    ScanReach buffer off (find_valid_bytes_go buffer fuel off) ∧
    scanStop buffer (find_valid_bytes_go buffer fuel off) := by
  induction fuel with
  | zero => intro off hfuel hoff; omega
  | succ fuel ih =>
    intro off hfuel hoff
    unfold find_valid_bytes_go
    by_cases h4 : off + 4 ≤ buffer.length
    · rw [if_pos h4]
      by_cases h0 : readLE buffer off 4 = 0
      · rw [if_pos h0]
        exact ⟨hoff, ScanReach.refl off, Or.inr (Or.inl h0)⟩
      · rw [if_neg h0]
        by_cases hov : off + readLE buffer off 4 > buffer.length
        · rw [if_pos hov]
          exact ⟨hoff, ScanReach.refl off, Or.inr (Or.inr hov)⟩
        · rw [if_neg hov]
          have hrec := ih (off + readLE buffer off 4) (by omega) (by omega)
          exact ⟨hrec.1,
            ScanReach.step off _ h4 h0 (by omega) hrec.2.1, hrec.2.2⟩
    · rw [if_neg h4]
      exact ⟨hoff, ScanReach.refl off, Or.inl (by omega)⟩

/-- C8: a positive fetch installs the new buffer contents with
`bytes_valid := find_valid_bytes`, ignoring the call's reported entry count
(`count` is universally quantified and unused); the scanned byte count is
reached from the buffer start by summing consecutive positive record length
prefixes, stops at a zero prefix or a length extending past the buffer end,
and never exceeds the buffer length. -/
theorem refill_valid_span (s : DirEntries) (newBuffer : List Nat)
    (count : Nat) (rest : List FetchOutcome) :
    DirEntries.refill_buffer s (FetchOutcome.filled newBuffer count :: rest) =
      some (PRes.ok true,
        { s with buffer := newBuffer,
                 bytes_valid := find_valid_bytes newBuffer,
                 parser_offset := 0 }, rest) ∧
    find_valid_bytes newBuffer ≤ newBuffer.length ∧
    ScanReach newBuffer 0 (find_valid_bytes newBuffer) ∧
    scanStop newBuffer (find_valid_bytes newBuffer) := by
  refine ⟨rfl, ?_⟩
  have h := find_valid_bytes_go_spec newBuffer (newBuffer.length + 1) 0
    (by omega) (Nat.zero_le _)
  exact ⟨h.1, h.2.1, h.2.2⟩

/-- Witness for C8, at a buffer holding one 24-byte record followed by a zero
prefix. -/
theorem refill_valid_span_witness :
    DirEntries.refill_buffer ⟨[], 0, 0, RequestedAttributes.default, false, true⟩
        [FetchOutcome.filled
          [24, 0, 0, 0,  0, 0, 0, 0,  0, 0, 0, 0,  0, 0, 0, 0,
           0, 0, 0, 0,  0, 0, 0, 0,  0, 0, 0, 0] 7] =
      some (PRes.ok true,
        ⟨[24, 0, 0, 0,  0, 0, 0, 0,  0, 0, 0, 0,  0, 0, 0, 0,
          0, 0, 0, 0,  0, 0, 0, 0,  0, 0, 0, 0],
         find_valid_bytes
          [24, 0, 0, 0,  0, 0, 0, 0,  0, 0, 0, 0,  0, 0, 0, 0,
           0, 0, 0, 0,  0, 0, 0, 0,  0, 0, 0, 0], 0,
         RequestedAttributes.default, false, true⟩, []) ∧
    find_valid_bytes
        [24, 0, 0, 0,  0, 0, 0, 0,  0, 0, 0, 0,  0, 0, 0, 0,
         0, 0, 0, 0,  0, 0, 0, 0,  0, 0, 0, 0] ≤
      ([24, 0, 0, 0,  0, 0, 0, 0,  0, 0, 0, 0,  0, 0, 0, 0,
        0, 0, 0, 0,  0, 0, 0, 0,  0, 0, 0, 0] : List Nat).length ∧
    ScanReach
        [24, 0, 0, 0,  0, 0, 0, 0,  0, 0, 0, 0,  0, 0, 0, 0,
         0, 0, 0, 0,  0, 0, 0, 0,  0, 0, 0, 0] 0
        (find_valid_bytes
          [24, 0, 0, 0,  0, 0, 0, 0,  0, 0, 0, 0,  0, 0, 0, 0,
           0, 0, 0, 0,  0, 0, 0, 0,  0, 0, 0, 0]) ∧
    scanStop
        [24, 0, 0, 0,  0, 0, 0, 0,  0, 0, 0, 0,  0, 0, 0, 0,
         0, 0, 0, 0,  0, 0, 0, 0,  0, 0, 0, 0]
        (find_valid_bytes
          [24, 0, 0, 0,  0, 0, 0, 0,  0, 0, 0, 0,  0, 0, 0, 0,
           0, 0, 0, 0,  0, 0, 0, 0,  0, 0, 0, 0]) :=
  refill_valid_span ⟨[], 0, 0, RequestedAttributes.default, false, true⟩
    [24, 0, 0, 0,  0, 0, 0, 0,  0, 0, 0, 0,  0, 0, 0, 0,
     0, 0, 0, 0,  0, 0, 0, 0,  0, 0, 0, 0] 7 []

/-- C4 (failing input): a reference pair at buffer position 4 carrying the
relative offset -100 and length 100.  The computed start wraps to
2^64 - 96 and the wrapped end (4) passes the `string_end > len` check, after
which the slice `buffer[string_start..string_end]` has its start beyond its
end: the Rust code panics (in debug builds the unchecked `string_start +
data_length` addition already overflows) instead of returning the
InvalidOffset error the specification requires for out-of-range offsets. -/
theorem attrref_negative_offset_panics :
    parse_attrreference_string
        [0, 0, 0, 0,  156, 255, 255, 255,  100, 0, 0, 0,  0, 0, 0, 0] 0 4 =
      PRes.panicked := by
  decide

set_option maxHeartbeats 1600000 in
/-- C6: decoding a well-formed record built from known field values — length
prefix `84 + name.length`, returned bitmap announcing all eight attributes,
fields in the fixed wire order, name bytes (zero-free, so including any
non-ASCII values) referenced at the end — yields an entry whose fields equal
exactly those values and advances the parser cursor by exactly the record's
length prefix. -/
theorem record_roundtrip (name : List Nat)
    (objtype sec nsec perms inode size alloc cnt : Nat)
    (req : RequestedAttributes)
    (hname : ∀ b ∈ name, b ≠ 0)
    (hlen : 84 + name.length < 4294967296)
    (hot : objtype < 4294967296) (hperm : perms < 4294967296)
    (hcnt : cnt < 4294967296)
    (hsec : sec < 9223372036854775808) (hnsec : nsec < 9223372036854775808)
    (hino : inode < 18446744073709551616) (hsz : size < 18446744073709551616)
    (hal : alloc < 18446744073709551616) :
    BufferParser.next_entry
        ⟨buildRecord name objtype sec nsec perms inode size alloc cnt, 0,
         84 + name.length, req⟩ =
      (some (PRes.ok ⟨name, some (ObjectType.fromCode objtype), some size,
          some alloc, some ((sec : Int), (nsec : Int)), some perms,
          some inode, some cnt⟩),
       ⟨buildRecord name objtype sec nsec perms inode size alloc cnt,
        84 + name.length, 84 + name.length, req⟩) := by
  have hsec64 : sec < 18446744073709551616 := by omega
  have hnsec64 : nsec < 18446744073709551616 := by omega
  have hBlen : (buildRecord name objtype sec nsec perms inode size alloc cnt).length =
      84 + name.length := by
    unfold buildRecord
    simp [le4_length, le8_length]
    omega
  have r0 : readLE (buildRecord name objtype sec nsec perms inode size alloc cnt) 0 4 =
      84 + name.length := by
    unfold buildRecord
    exact readLE_le4 _ _ (by omega)
  have r4 : readLE (buildRecord name objtype sec nsec perms inode size alloc cnt) 4 4 =
      0x02020409 := by
    unfold buildRecord
    simp only [readLE_le4_skip, readLE_le8_skip, Nat.reduceSub, Nat.reduceLeDiff]
    exact readLE_le4 _ _ (by norm_num)
  have r8 : readLE (buildRecord name objtype sec nsec perms inode size alloc cnt) 8 4 =
      0 := by
    unfold buildRecord
    simp only [readLE_le4_skip, readLE_le8_skip, Nat.reduceSub, Nat.reduceLeDiff]
    exact readLE_le4 _ _ (by norm_num)
  have r12 : readLE (buildRecord name objtype sec nsec perms inode size alloc cnt) 12 4 =
      2 := by
    unfold buildRecord
    simp only [readLE_le4_skip, readLE_le8_skip, Nat.reduceSub, Nat.reduceLeDiff]
    exact readLE_le4 _ _ (by norm_num)
  have r16 : readLE (buildRecord name objtype sec nsec perms inode size alloc cnt) 16 4 =
      6 := by
    unfold buildRecord
    simp only [readLE_le4_skip, readLE_le8_skip, Nat.reduceSub, Nat.reduceLeDiff]
    exact readLE_le4 _ _ (by norm_num)
  have r20 : readLE (buildRecord name objtype sec nsec perms inode size alloc cnt) 20 4 =
      0 := by
    unfold buildRecord
    simp only [readLE_le4_skip, readLE_le8_skip, Nat.reduceSub, Nat.reduceLeDiff]
    exact readLE_le4 _ _ (by norm_num)
  have r24 : readLE (buildRecord name objtype sec nsec perms inode size alloc cnt) 24 4 =
      60 := by
    unfold buildRecord
    simp only [readLE_le4_skip, readLE_le8_skip, Nat.reduceSub, Nat.reduceLeDiff]
    exact readLE_le4 _ _ (by norm_num)
  have r28 : readLE (buildRecord name objtype sec nsec perms inode size alloc cnt) 28 4 =
      name.length := by
    unfold buildRecord
    simp only [readLE_le4_skip, readLE_le8_skip, Nat.reduceSub, Nat.reduceLeDiff]
    exact readLE_le4 _ _ (by omega)
  have r32 : readLE (buildRecord name objtype sec nsec perms inode size alloc cnt) 32 4 =
      objtype := by
    unfold buildRecord
    simp only [readLE_le4_skip, readLE_le8_skip, Nat.reduceSub, Nat.reduceLeDiff]
    exact readLE_le4 _ _ hot
  have r36 : readLE (buildRecord name objtype sec nsec perms inode size alloc cnt) 36 8 =
      sec := by
    unfold buildRecord
    simp only [readLE_le4_skip, readLE_le8_skip, Nat.reduceSub, Nat.reduceLeDiff]
    exact readLE_le8 _ _ hsec64
  have r44 : readLE (buildRecord name objtype sec nsec perms inode size alloc cnt) 44 8 =
      nsec := by
    unfold buildRecord
    simp only [readLE_le4_skip, readLE_le8_skip, Nat.reduceSub, Nat.reduceLeDiff]
    exact readLE_le8 _ _ hnsec64
  have r52 : readLE (buildRecord name objtype sec nsec perms inode size alloc cnt) 52 4 =
      perms := by
    unfold buildRecord
    simp only [readLE_le4_skip, readLE_le8_skip, Nat.reduceSub, Nat.reduceLeDiff]
    exact readLE_le4 _ _ hperm
  have r56 : readLE (buildRecord name objtype sec nsec perms inode size alloc cnt) 56 8 =
      inode := by
    unfold buildRecord
    simp only [readLE_le4_skip, readLE_le8_skip, Nat.reduceSub, Nat.reduceLeDiff]
    exact readLE_le8 _ _ hino
  have r64 : readLE (buildRecord name objtype sec nsec perms inode size alloc cnt) 64 8 =
      size := by
    unfold buildRecord
    simp only [readLE_le4_skip, readLE_le8_skip, Nat.reduceSub, Nat.reduceLeDiff]
    exact readLE_le8 _ _ hsz
  have r72 : readLE (buildRecord name objtype sec nsec perms inode size alloc cnt) 72 8 =
      alloc := by
    unfold buildRecord
    simp only [readLE_le4_skip, readLE_le8_skip, Nat.reduceSub, Nat.reduceLeDiff]
    exact readLE_le8 _ _ hal
  have r80 : readLE (buildRecord name objtype sec nsec perms inode size alloc cnt) 80 4 =
      cnt := by
    unfold buildRecord
    simp only [readLE_le4_skip, readLE_le8_skip, Nat.reduceSub, Nat.reduceLeDiff]
    exact readLE_le4 _ _ hcnt
  have hdrop : (buildRecord name objtype sec nsec perms inode size alloc cnt).drop 84 =
      name := by
    unfold buildRecord
    simp only [drop_le4_skip, drop_le8_skip, Nat.reduceSub, Nat.reduceLeDiff,
      List.drop_zero]
  have hge : ∀ k : Nat, k ≤ 84 → k ≤ 84 + name.length := by omega
  have hmod : (84 + name.length) % 18446744073709551616 = 84 + name.length :=
    Nat.mod_eq_of_lt (by omega)
  have hsub : 84 + name.length - 84 = name.length := by omega
  have hnotlt : (84 + name.length < 84) = False := eq_false (by omega)
  have hc1 : ((0 : Nat) ≥ 84 + name.length) = False := eq_false (by omega)
  have hc2 : (84 + name.length = 0) = False := eq_false (by omega)
  have hc3 : ((0 : Nat) + (84 + name.length) > 84 + name.length) = False :=
    eq_false (by omega)
  have hsecsigned : signed64 ((sec : Nat) : Int) = (sec : Int) := by
    unfold signed64
    omega
  have hnsecsigned : signed64 ((nsec : Nat) : Int) = (nsec : Int) := by
    unfold signed64
    omega
  have htw : name.takeWhile (fun b => b != 0) = name := takeWhile_ne_zero name hname
  have hbm : read_attribute_set (buildRecord name objtype sec nsec perms inode size alloc cnt) 4 =
      PRes.ok ⟨0x02020409, 0, 2, 6, 0⟩ := by
    simp [read_attribute_set, hBlen, hge, r4, r8, r12, r16, r20]
  have hn : readOptName ((0x02020409 : Nat) &&& 0x00000001 ≠ 0) (buildRecord name objtype sec nsec perms inode size alloc cnt) 0 24 =
      PRes.ok (name, 32) := by
    simp [readOptName, parse_attrreference_string, read_i32, read_u32,
      signed32, i32AsUsize, hBlen, hge, r24, r28, hdrop, htw, hmod, hsub, hnotlt]
  have hty : readOptU32 ((0x02020409 : Nat) &&& 0x00000008 ≠ 0) (buildRecord name objtype sec nsec perms inode size alloc cnt) 32 =
      PRes.ok (some objtype, 36) := by
    simp [readOptU32, read_u32, hBlen, hge, r32]
  have hmt : readOptTimespec ((0x02020409 : Nat) &&& 0x00000400 ≠ 0) (buildRecord name objtype sec nsec perms inode size alloc cnt) 36 =
      PRes.ok (some ((sec : Int), (nsec : Int)), 52) := by
    simp [readOptTimespec, parse_timespec, read_i64, hBlen, hge, r36, r44,
      hsecsigned, hnsecsigned]
  have hpm : readOptU32 ((0x02020409 : Nat) &&& 0x00020000 ≠ 0) (buildRecord name objtype sec nsec perms inode size alloc cnt) 52 =
      PRes.ok (some perms, 56) := by
    simp [readOptU32, read_u32, hBlen, hge, r52]
  have hin : readOptU64 ((0x02020409 : Nat) &&& 0x02000000 ≠ 0) (buildRecord name objtype sec nsec perms inode size alloc cnt) 56 =
      PRes.ok (some inode, 64) := by
    simp [readOptU64, read_u64, hBlen, hge, r56]
  have hsize : readOptU64 ((6 : Nat) &&& 0x00000002 ≠ 0) (buildRecord name objtype sec nsec perms inode size alloc cnt) 64 =
      PRes.ok (some size, 72) := by
    simp [readOptU64, read_u64, hBlen, hge, r64]
  have halloc : readOptU64 ((6 : Nat) &&& 0x00000004 ≠ 0) (buildRecord name objtype sec nsec perms inode size alloc cnt) 72 =
      PRes.ok (some alloc, 80) := by
    simp [readOptU64, read_u64, hBlen, hge, r72]
  have hentry : readOptEntryCount ((2 : Nat) &&& 0x00000002 ≠ 0) (buildRecord name objtype sec nsec perms inode size alloc cnt) 80 =
      PRes.ok (some cnt) := by
    simp [readOptEntryCount, read_u32, hBlen, hge, r80]
  have hparse : parse_entry (buildRecord name objtype sec nsec perms inode size alloc cnt) 0 (84 + name.length) =
      PRes.ok ⟨name, some (ObjectType.fromCode objtype), some size,
        some alloc, some ((sec : Int), (nsec : Int)), some perms,
        some inode, some cnt⟩ := by
    unfold parse_entry
    simp only [Nat.reduceAdd, hbm, hn, hty, hmt, hpm, hin, hsize, halloc,
      hentry, PRes.bind_ok]
    simp [Option.map]
  have hread0 : read_u32 (buildRecord name objtype sec nsec perms inode size alloc cnt) 0 = PRes.ok (84 + name.length) := by
    simp [read_u32, hBlen, hge, r0]
  unfold BufferParser.next_entry
  simp only [Nat.zero_add, hread0, hc1, hc2, hc3, hparse, reduceIte]
  simp

/-- Witness for C6, at a record carrying the two-byte UTF-8 name `é`
(bytes 195, 169 — non-ASCII), object-type code 1 (regular), and concrete
time, permission, inode, size, allocation and child-count values. -/
theorem record_roundtrip_witness :
    (∀ b ∈ [195, 169], b ≠ 0) ∧
    BufferParser.next_entry
        ⟨buildRecord [195, 169] 1 1700000000 123 420 777 11 4096 2, 0,
         84 + [195, 169].length, RequestedAttributes.all⟩ =
      (some (PRes.ok ⟨[195, 169], some (ObjectType.fromCode 1), some 11,
          some 4096, some ((1700000000 : Int), (123 : Int)), some 420,
          some 777, some 2⟩),
       ⟨buildRecord [195, 169] 1 1700000000 123 420 777 11 4096 2,
        84 + [195, 169].length, 84 + [195, 169].length,
        RequestedAttributes.all⟩) :=
  ⟨by decide,
   record_roundtrip [195, 169] 1 1700000000 123 420 777 11 4096 2
     RequestedAttributes.all (by decide) (by decide) (by decide) (by decide)
     (by decide) (by decide) (by decide) (by decide) (by decide) (by decide)⟩
